import Mathlib

/-!
# Verification of the wallet_service batching core

Shallow embedding of `src/electrum_cmd_util.py` (classes `ElectrumCmdUtil`
and `APICmdUtil`) of the `wallet_service` repository.

Modelling conventions:
* Python floats (BTC amounts, fees) are modelled as exact rationals `ℚ`;
  binary floating-point rounding is abstracted to exact real arithmetic.
* Python `int(x)` (truncation toward zero) is `pyTrunc`.
* The persistence collaborator `DbManager` is not part of the two source
  files; its operations (`get_unsent`, `insert_transaction`,
  `update_transactions`) are modelled from the spec's Ledger contract and
  marked as such in their doc comments.
* The Electrum wallet collaborator is modelled as the set of transaction
  ids it currently records (`add_transaction` / `remove_transaction`).
* The network collaborators (`estimate_fee`, transaction size estimation,
  broadcast success, txid computation) are oracle parameters of the
  embedded operations; the blocking poll `wait_for_fee_estimates` is
  modelled separately as a fuelled loop over its oracle.
-/

namespace WalletService

/-- `100000000`, satoshis per BTC (`1.0e8` in the source). -/
def satPerBTC : ℚ := 100000000

/-- Python `int(q)`: truncation toward zero. -/
def pyTrunc (q : ℚ) : ℤ := Int.tdiv q.num (q.den : ℤ)

/-- One row of the pending-transaction ledger, as created by
`db_manager.insert_transaction(addr, int(btc_amount * 1.0e8), wallet_id)`
and read back by `get_tx` / `get_send_history`: an internal id `sr_id`,
destination address, integer satoshi amount, owning wallet, and the
`txid`/`fee` columns that are `None` until the row is broadcast. -/
structure TxRow where
  sr_id : Nat
  address : String
  amount : ℤ
  wallet_id : Nat
  txid : Option String
  fee : Option ℚ
deriving DecidableEq, Repr

/-- Request lifecycle status of the spec's data model.  The source derives
it from the `txid` column (`'sent' if tx.txid else 'queued'`,
`get_send_history`); `Failed` appears in the spec's enum but nothing in the
source produces it. -/
inductive Status where
  | Queued
  | Sent
  | Failed
deriving DecidableEq, Repr

/-- Status of a row as `get_send_history` derives it:
`'sent' if tx.txid else 'queued'`. -/
def TxRow.status (r : TxRow) : Status :=
  if r.txid.isSome then Status.Sent else Status.Queued

/-- State of the persistence collaborator backing the ledger: the rows plus
the next `sr_id` to assign. -/
structure DbState where
  rows : List TxRow
  nextId : Nat
deriving DecidableEq, Repr

/-- Modelled from the spec: `db_manager.get_unsent(wallet_id)` is the
Ledger's `list_queued(wallet_id)` — "returns all Queued requests for a
wallet, oldest first".  Queued means the `txid` column is still unset. -/
def get_unsent (db : DbState) (walletId : Nat) : List TxRow :=
  db.rows.filter (fun r => r.wallet_id == walletId && r.txid.isNone)

/-- Modelled from the spec: `db_manager.insert_transaction(addr, amount,
wallet_id)` is the Ledger's `append(request) -> id` — "inserts a new Queued
request", returning the stored object carrying its fresh `sr_id`. -/
def insert_transaction (db : DbState) (addr : String) (amount : ℤ)
    (walletId : Nat) : TxRow × DbState :=
  let row : TxRow := ⟨db.nextId, addr, amount, walletId, none, none⟩
  (row, ⟨db.rows ++ [row], db.nextId + 1⟩)

/-- Modelled from the spec: `db_manager.update_transactions(wallet_id,
txid, total_fee, total_sat_amount)` is the Ledger's `mark_sent` —
"atomically transitions a set of Queued requests to Sent, stamping a
shared `txid` and a per-request fee share"; the share is the proportional
`amount_i / total_amount * total_fee` of §4.2. -/
def update_transactions (db : DbState) (walletId : Nat) (txid : String)
    (totalFee : ℚ) (totalSat : ℚ) : DbState :=
  ⟨db.rows.map (fun r =>
      if r.wallet_id == walletId && r.txid.isNone then
        { r with txid := some txid,
                 fee := some ((r.amount : ℚ) / totalSat * totalFee) }
      else r),
    db.nextId⟩

/-- The ledger mutations the source performs (through `DbManager`):
row insertion in `send`, and the mark-sent update after a successful
broadcast.  `get_unsent` / `get_tx` / `get_all_txs` are reads. -/
inductive LedgerOp where
  | insert (addr : String) (amount : ℤ) (walletId : Nat)
  | markSent (walletId : Nat) (txid : String) (totalFee totalSat : ℚ)

/-- Apply one ledger mutation. -/
def applyOp (db : DbState) : LedgerOp → DbState
  | LedgerOp.insert addr amount walletId =>
      (insert_transaction db addr amount walletId).2
  | LedgerOp.markSent walletId txid totalFee totalSat =>
      update_transactions db walletId txid totalFee totalSat

/-- Apply a sequence of ledger mutations, oldest first. -/
def applyOps (db : DbState) : List LedgerOp → DbState
  | [] => db
  | op :: ops => applyOps (applyOp db op) ops

/-- The Electrum wallet collaborator, reduced to the transaction ids it
currently records (`wallet.add_transaction` / `wallet.remove_transaction`). -/
structure WalletState where
  txs : List String
deriving DecidableEq, Repr

/-- `wallet.add_transaction(tx)`. -/
def WalletState.add_transaction (w : WalletState) (txid : String) : WalletState :=
  ⟨txid :: w.txs⟩

/-- `wallet.remove_transaction(tx.txid())`. -/
def WalletState.remove_transaction (w : WalletState) (txid : String) : WalletState :=
  ⟨w.txs.filter (fun t => t != txid)⟩

/-- `ElectrumCmdUtil.wait_for_fee_estimates`, the polling loop
`while not self.network.get_fee_estimates(): await asyncio.sleep(1)`.
`oracle k` is the truthiness of `network.get_fee_estimates()` at the
`k`-th poll.  The loop has no timeout in the source, so we give the model
explicit fuel: the result is `true` iff the loop has exited within `fuel`
polls. -/
def wait_for_fee_estimates (oracle : Nat → Bool) : Nat → Bool
  | 0 => false
  | fuel + 1 =>
      if oracle 0 then true
      else wait_for_fee_estimates (fun k => oracle (k + 1)) fuel

/-- Result record of `APICmdUtil._get_tx_details`: the tuple
`(this_tx_fee, total_fee, total_sat_amount, outputs)` it returns. -/
structure TxDetails where
  this_tx_fee : ℚ
  total_fee : ℚ
  total_sat_amount : ℤ
  outputs : List (String × ℚ)
deriving Repr

/-- `APICmdUtil._get_tx_details(cmd_manager, wallet_id, addr, btc_amount)`,
with the wallet's unsent rows and the network collaborators passed
explicitly: `estimateFee size` is `conf.estimate_fee(total_size, ...)` in
satoshis, `txSizeOf outputs` is `get_tx_size(outputs = outputs)`.

Source, lines 246–270:
`outputs = [[addr, btc_amount]]`, `sat_amount = int(btc_amount * 1.0e8)`,
each unsent row adds `tx.amount` to `total_sat_amount` and
`[tx.address, tx.amount / 1.0e8]` to `outputs`;
`total_fee = conf.estimate_fee(total_size, ...) / 1.0e8`;
`tx_proportion = sat_amount / total_sat_amount`;
`this_tx_fee = tx_proportion * total_fee`. -/
def getTxDetails (addr : String) (btcAmount : ℚ) (unsent : List TxRow)
    (estimateFee : Nat → ℚ) (txSizeOf : List (String × ℚ) → Nat) : TxDetails :=
  let outputs : List (String × ℚ) :=
    (addr, btcAmount) :: unsent.map (fun tx => (tx.address, (tx.amount : ℚ) / satPerBTC))
  let sat_amount : ℤ := pyTrunc (btcAmount * satPerBTC)
  let total_sat_amount : ℤ := sat_amount + (unsent.map (fun tx => tx.amount)).sum
  let total_size : Nat := txSizeOf outputs
  let total_fee : ℚ := estimateFee total_size / satPerBTC
  let tx_proportion : ℚ := (sat_amount : ℚ) / (total_sat_amount : ℚ)
  let this_tx_fee : ℚ := tx_proportion * total_fee
  ⟨this_tx_fee, total_fee, total_sat_amount, outputs⟩

/-- Configuration the two API entry points read: `config['USER']
['api_password']` and `int(config['USER']['batching_threshold'])`. -/
structure Config where
  api_password : String
  batching_threshold_pct : ℤ
deriving DecidableEq, Repr

/-- `batching_threshold = int(cmd_manager.config['USER']
['batching_threshold']) / 100` (line 294). -/
def batchingThreshold (cfg : Config) : ℚ :=
  (cfg.batching_threshold_pct : ℚ) / 100

/-- `fee_to_amount_proportion = int(total_fee * 1.0e8) / total_sat_amount`
(line 295). -/
def feeToAmountProportion (d : TxDetails) : ℚ :=
  (pyTrunc (d.total_fee * satPerBTC) : ℚ) / (d.total_sat_amount : ℚ)

/-- `APICmdUtil.presend(addr, btc_amount, wallet_id, wallet_password,
api_password)`: the dry run.  Raises on a wrong API password, otherwise
computes `_get_tx_details` and returns `this_tx_fee`.  It only reads the
ledger (`get_unsent` inside `_get_tx_details`), so the `DbState` is
returned alongside the result. -/
def presend (cfg : Config) (addr : String) (btcAmount : ℚ) (walletId : Nat)
    (apiPassword : String) (estimateFee : Nat → ℚ)
    (txSizeOf : List (String × ℚ) → Nat) (db : DbState) :
    Except String ℚ × DbState :=
  if apiPassword ≠ cfg.api_password then
    (Except.error "Incorrect API password", db)
  else
    let d := getTxDetails addr btcAmount (get_unsent db walletId) estimateFee txSizeOf
    (Except.ok d.this_tx_fee, db)

/-- `APICmdUtil.send(addr, btc_amount, wallet_id, wallet_password,
api_password)` (lines 284–315).  Oracles: `estimateFee`/`txSizeOf` as in
`getTxDetails`, `txidOf outputs` is the txid of the transaction
`create_tx` builds for those outputs, `broadcastOk` is whether
`network.broadcast_transaction` succeeds.  Returns the `(this_tx_fee,
sr_id)` pair or the raised error, together with the final ledger and
wallet states.

Source order: password check; `_get_tx_details`;
`batching_threshold = int(config) / 100`;
`fee_to_amount_proportion = int(total_fee * 1.0e8) / total_sat_amount`;
`insert_transaction`; if `batching_threshold >= fee_to_amount_proportion`
then build, `add_transaction`, broadcast, and on success
`update_transactions` — on failure `async_broadcast`'s handler removes the
transaction, `send`'s handler removes it again and re-raises. -/
def send (cfg : Config) (addr : String) (btcAmount : ℚ) (walletId : Nat)
    (apiPassword : String) (estimateFee : Nat → ℚ)
    (txSizeOf : List (String × ℚ) → Nat)
    (txidOf : List (String × ℚ) → String) (broadcastOk : Bool)
    (db : DbState) (w : WalletState) :
    Except String (ℚ × Nat) × DbState × WalletState :=
  if apiPassword ≠ cfg.api_password then
    (Except.error "Incorrect API password", db, w)
  else
    let d := getTxDetails addr btcAmount (get_unsent db walletId) estimateFee txSizeOf
    let inserted := insert_transaction db addr (pyTrunc (btcAmount * satPerBTC)) walletId
    let db1 := inserted.2
    let sr_id := inserted.1.sr_id
    if feeToAmountProportion d ≤ batchingThreshold cfg then
      let txid := txidOf d.outputs
      let w1 := w.add_transaction txid
      if broadcastOk then
        let db2 := update_transactions db1 walletId txid d.total_fee (d.total_sat_amount : ℚ)
        (Except.ok (d.this_tx_fee, sr_id), db2, w1)
      else
        let w2 := (w1.remove_transaction txid).remove_transaction txid
        (Except.error "Failed to broadcast", db1, w2)
    else
      (Except.ok (d.this_tx_fee, sr_id), db1, w)

/-- The batching decision as claim C2 words it (spec §4.2 step 7):
broadcast iff `fee_ratio <= batching_threshold` or the batch already holds
the configured maximum number of requests.  Stated from the claim's words,
to be compared with the source's decision, which tests only the
threshold. -/
def claimedDecision (threshold ratio : ℚ) (batchCount maxRequests : Nat) : Bool :=
  decide (ratio ≤ threshold) || decide (maxRequests ≤ batchCount)

/-! ## Concrete scenarios used by counterexamples and witnesses -/

/-- Three queued 1-satoshi requests for wallet 7: a batch that would hit a
hypothetical cap of 4 once a fourth request arrives. -/
def c2db : DbState :=
  ⟨[⟨0, "d1", 1, 7, none, none⟩, ⟨1, "d2", 1, 7, none, none⟩,
    ⟨2, "d3", 1, 7, none, none⟩], 3⟩

/-- A ledger holding one already-Sent row (for wallet 1, txid `"T"`). -/
def c3db : DbState := ⟨[⟨0, "a", 5, 1, some "T", some 1⟩], 1⟩

/-- The Sent row of `c3db`. -/
def c3row : TxRow := ⟨0, "a", 5, 1, some "T", some 1⟩

/-- A later mutation hitting `c3db`'s wallet: another mark-sent cycle. -/
def c3ops : List LedgerOp := [LedgerOp.markSent 1 "U" 1 1]

/-- A queued 4-satoshi request for wallet 7. -/
def rowB4 : TxRow := ⟨0, "b", 4, 7, none, none⟩

/-- A ledger holding only `rowB4`: one queued request awaiting batching. -/
def dbOneQueued : DbState := ⟨[rowB4], 1⟩

/-! ## Helper lemmas -/

theorem presend_snd (cfg : Config) (addr : String) (btc : ℚ) (wid : Nat)
    (pw : String) (ef : Nat → ℚ) (ts : List (String × ℚ) → Nat) (db : DbState) :
    (presend cfg addr btc wid pw ef ts db).2 = db := by
  unfold presend
  split <;> rfl

theorem send_wrong_password (cfg : Config) (addr : String) (btc : ℚ) (wid : Nat)
    (pw : String) (ef : Nat → ℚ) (ts : List (String × ℚ) → Nat)
    (txf : List (String × ℚ) → String) (ok : Bool) (db : DbState) (w : WalletState)
    (h : pw ≠ cfg.api_password) :
    send cfg addr btc wid pw ef ts txf ok db w =
      (Except.error "Incorrect API password", db, w) := by
  unfold send
  rw [if_pos h]

theorem send_queued (cfg : Config) (addr : String) (btc : ℚ) (wid : Nat)
    (ef : Nat → ℚ) (ts : List (String × ℚ) → Nat)
    (txf : List (String × ℚ) → String) (ok : Bool) (db : DbState) (w : WalletState)
    (hgt : ¬ feeToAmountProportion (getTxDetails addr btc (get_unsent db wid) ef ts) ≤
        batchingThreshold cfg) :
    send cfg addr btc wid cfg.api_password ef ts txf ok db w =
      (Except.ok ((getTxDetails addr btc (get_unsent db wid) ef ts).this_tx_fee, db.nextId),
        (insert_transaction db addr (pyTrunc (btc * satPerBTC)) wid).2, w) := by
  simp only [send]
  rw [if_neg (fun hne : cfg.api_password ≠ cfg.api_password => hne rfl), if_neg hgt]
  rfl

theorem send_broadcast (cfg : Config) (addr : String) (btc : ℚ) (wid : Nat)
    (ef : Nat → ℚ) (ts : List (String × ℚ) → Nat)
    (txf : List (String × ℚ) → String) (db : DbState) (w : WalletState)
    (hle : feeToAmountProportion (getTxDetails addr btc (get_unsent db wid) ef ts) ≤
        batchingThreshold cfg) :
    send cfg addr btc wid cfg.api_password ef ts txf true db w =
      (Except.ok ((getTxDetails addr btc (get_unsent db wid) ef ts).this_tx_fee, db.nextId),
        update_transactions (insert_transaction db addr (pyTrunc (btc * satPerBTC)) wid).2
          wid (txf (getTxDetails addr btc (get_unsent db wid) ef ts).outputs)
          (getTxDetails addr btc (get_unsent db wid) ef ts).total_fee
          ((getTxDetails addr btc (get_unsent db wid) ef ts).total_sat_amount : ℚ),
        w.add_transaction (txf (getTxDetails addr btc (get_unsent db wid) ef ts).outputs)) := by
  simp only [send]
  rw [if_neg (fun hne : cfg.api_password ≠ cfg.api_password => hne rfl), if_pos hle]
  rfl

theorem send_broadcast_failure (cfg : Config) (addr : String) (btc : ℚ) (wid : Nat)
    (ef : Nat → ℚ) (ts : List (String × ℚ) → Nat)
    (txf : List (String × ℚ) → String) (db : DbState) (w : WalletState)
    (hle : feeToAmountProportion (getTxDetails addr btc (get_unsent db wid) ef ts) ≤
        batchingThreshold cfg) :
    send cfg addr btc wid cfg.api_password ef ts txf false db w =
      (Except.error "Failed to broadcast",
        (insert_transaction db addr (pyTrunc (btc * satPerBTC)) wid).2,
        ((w.add_transaction
            (txf (getTxDetails addr btc (get_unsent db wid) ef ts).outputs)).remove_transaction
          (txf (getTxDetails addr btc (get_unsent db wid) ef ts).outputs)).remove_transaction
          (txf (getTxDetails addr btc (get_unsent db wid) ef ts).outputs)) := by
  simp only [send]
  rw [if_neg (fun hne : cfg.api_password ≠ cfg.api_password => hne rfl), if_pos hle]
  rfl

theorem remove_add_self (w : WalletState) (t : String) (h : t ∉ w.txs) :
    ((w.add_transaction t).remove_transaction t).remove_transaction t = w := by
  obtain ⟨txs⟩ := w
  have hfil : txs.filter (fun s => s != t) = txs := by
    refine List.filter_eq_self.mpr (fun x hx => ?_)
    exact bne_iff_ne.mpr (fun hxt => h (hxt ▸ hx))
  simp only [WalletState.add_transaction, WalletState.remove_transaction,
    List.filter_cons, bne_self_eq_false, hfil]
  simp [hfil]

theorem status_ne_failed (r : TxRow) : r.status ≠ Status.Failed := by
  unfold TxRow.status
  split <;> decide

theorem status_queued_of_none (r : TxRow) (h : r.txid.isNone = true) :
    r.status = Status.Queued := by
  unfold TxRow.status
  rw [if_neg]
  rw [Option.isNone_iff_eq_none] at h
  simp [h]

theorem isSome_of_status_sent (r : TxRow) (h : r.status = Status.Sent) :
    r.txid.isSome = true := by
  by_cases hx : r.txid.isSome = true
  · exact hx
  · unfold TxRow.status at h
    rw [if_neg hx] at h
    exact absurd h (by decide)

theorem applyOp_row (db : DbState) (op : LedgerOp) (r : TxRow) (hr : r ∈ db.rows) :
    ∃ r', r' ∈ (applyOp db op).rows ∧ r'.sr_id = r.sr_id ∧ r'.address = r.address ∧
      r'.amount = r.amount ∧ r'.wallet_id = r.wallet_id ∧
      (r' = r ∨ (r.status = Status.Queued ∧ r'.status = Status.Sent)) := by
  cases op with
  | insert a amt wid =>
      exact ⟨r, by simp [applyOp, insert_transaction, List.mem_append, hr],
        rfl, rfl, rfl, rfl, Or.inl rfl⟩
  | markSent wid txid tf tsAmt =>
      by_cases hc : (r.wallet_id == wid && r.txid.isNone) = true
      · refine ⟨{r with txid := some txid, fee := some ((r.amount : ℚ) / tsAmt * tf)},
          ?_, rfl, rfl, rfl, rfl, Or.inr ⟨?_, rfl⟩⟩
        · simp only [applyOp, update_transactions]
          refine List.mem_map.mpr ⟨r, hr, ?_⟩
          simp [hc]
        · exact status_queued_of_none r (Bool.and_elim_right hc)
      · refine ⟨r, ?_, rfl, rfl, rfl, rfl, Or.inl rfl⟩
        simp only [applyOp, update_transactions]
        refine List.mem_map.mpr ⟨r, hr, ?_⟩
        simp [hc]

theorem applyOp_sent_mem (db : DbState) (op : LedgerOp) (r : TxRow)
    (hr : r ∈ db.rows) (hs : r.txid.isSome = true) :
    r ∈ (applyOp db op).rows := by
  cases op with
  | insert a amt wid =>
      simp [applyOp, insert_transaction, List.mem_append, hr]
  | markSent wid txid tf tsAmt =>
      have hn : r.txid.isNone = false := by
        cases hx : r.txid with
        | none => rw [hx] at hs; exact absurd hs (by decide)
        | some v => rfl
      have hc : (r.wallet_id == wid && r.txid.isNone) = false := by simp [hn]
      simp only [applyOp, update_transactions]
      refine List.mem_map.mpr ⟨r, hr, ?_⟩
      simp [hc]

theorem applyOps_row (db : DbState) (ops : List LedgerOp) (r : TxRow)
    (hr : r ∈ db.rows) :
    ∃ r', r' ∈ (applyOps db ops).rows ∧ r'.sr_id = r.sr_id ∧ r'.address = r.address ∧
      r'.amount = r.amount ∧ r'.wallet_id = r.wallet_id ∧
      (r' = r ∨ (r.status = Status.Queued ∧ r'.status = Status.Sent)) := by
  induction ops generalizing db r with
  | nil => exact ⟨r, hr, rfl, rfl, rfl, rfl, Or.inl rfl⟩
  | cons op ops ih =>
      obtain ⟨r1, h1mem, h1id, h1addr, h1amt, h1wid, h1tr⟩ := applyOp_row db op r hr
      obtain ⟨r2, h2mem, h2id, h2addr, h2amt, h2wid, h2tr⟩ := ih (applyOp db op) r1 h1mem
      refine ⟨r2, h2mem, h2id.trans h1id, h2addr.trans h1addr, h2amt.trans h1amt,
        h2wid.trans h1wid, ?_⟩
      rcases h1tr with h1eq | ⟨h1q, h1s⟩
      · exact h1eq ▸ h2tr
      · rcases h2tr with h2eq | ⟨h2q, h2s⟩
        · exact Or.inr ⟨h1q, h2eq ▸ h1s⟩
        · rw [h1s] at h2q
          exact absurd h2q (by decide)

theorem applyOps_sent_mem (db : DbState) (ops : List LedgerOp) (r : TxRow)
    (hr : r ∈ db.rows) (hs : r.txid.isSome = true) :
    r ∈ (applyOps db ops).rows := by
  induction ops generalizing db with
  | nil => exact hr
  | cons op ops ih => exact ih (applyOp db op) (applyOp_sent_mem db op r hr hs)

/-! ## Claims -/

/-- C1: the claim says per-request fee attributions are computed in integer
satoshi arithmetic, summing exactly to `total_fee`, with the rounding
remainder assigned to the largest entry.  The source instead computes the
share by real (floating-point) division, `sat_amount / total_sat_amount *
total_fee`, with no integer rounding and no remainder assignment: for a
1-satoshi request batched with a queued 2-satoshi request under a total
fee of 1 satoshi, the attributed share is exactly 1/3 of a satoshi — not
an integer. -/
theorem C1_attribution_is_fractional :
    (getTxDetails "a" (1 / 100000000) [⟨0, "b", 2, 7, none, none⟩]
        (fun _ => 1) (fun _ => 100)).this_tx_fee * satPerBTC = 1 / 3 := by
  norm_num [getTxDetails, pyTrunc, satPerBTC]

/-- C4: when the broadcast attempt fails, the transaction that `send` had
added to the wallet is removed again (for a fresh txid the wallet ends
exactly where it started), the error is re-raised, and the ledger holds
the previously queued rows untouched plus the new request — all still
Queued with `txid` unset, so the whole batch stays eligible: the wallet's
unsent set afterwards is the old unsent set plus the new request. -/
theorem C4_failed_broadcast_rolls_back (cfg : Config) (addr : String) (btc : ℚ)
    (wid : Nat) (ef : Nat → ℚ) (ts : List (String × ℚ) → Nat)
    (txf : List (String × ℚ) → String) (db : DbState) (w : WalletState)
    (hle : feeToAmountProportion (getTxDetails addr btc (get_unsent db wid) ef ts) ≤
        batchingThreshold cfg)
    (hfresh : txf (getTxDetails addr btc (get_unsent db wid) ef ts).outputs ∉ w.txs) :
    send cfg addr btc wid cfg.api_password ef ts txf false db w =
      (Except.error "Failed to broadcast",
        ⟨db.rows ++ [⟨db.nextId, addr, pyTrunc (btc * satPerBTC), wid, none, none⟩],
          db.nextId + 1⟩, w) ∧
    get_unsent ⟨db.rows ++ [⟨db.nextId, addr, pyTrunc (btc * satPerBTC), wid, none, none⟩],
        db.nextId + 1⟩ wid =
      get_unsent db wid ++ [⟨db.nextId, addr, pyTrunc (btc * satPerBTC), wid, none, none⟩] := by
  constructor
  · rw [send_broadcast_failure cfg addr btc wid ef ts txf db w hle,
      remove_add_self w _ hfresh]
    rfl
  · simp [get_unsent, List.filter_append]

/-- Witness for C4: the below-threshold batch of `dbOneQueued` with a
failing broadcast leaves both requests queued and the wallet empty. -/
theorem C4_witness :
    (send ⟨"hunter2", 5⟩ "a" (16 / 100000000) 7 "hunter2" (fun _ => 1) (fun _ => 120)
        (fun _ => "T") false dbOneQueued ⟨[]⟩ =
      (Except.error "Failed to broadcast",
        ⟨dbOneQueued.rows ++
            [⟨dbOneQueued.nextId, "a", pyTrunc (16 / 100000000 * satPerBTC), 7, none, none⟩],
          dbOneQueued.nextId + 1⟩, ⟨[]⟩)) ∧
    get_unsent ⟨dbOneQueued.rows ++
        [⟨dbOneQueued.nextId, "a", pyTrunc (16 / 100000000 * satPerBTC), 7, none, none⟩],
        dbOneQueued.nextId + 1⟩ 7 =
      get_unsent dbOneQueued 7 ++
        [⟨dbOneQueued.nextId, "a", pyTrunc (16 / 100000000 * satPerBTC), 7, none, none⟩] :=
  C4_failed_broadcast_rolls_back ⟨"hunter2", 5⟩ "a" (16 / 100000000) 7 (fun _ => 1)
    (fun _ => 120) (fun _ => "T") dbOneQueued ⟨[]⟩
    (by norm_num [feeToAmountProportion, batchingThreshold, getTxDetails, get_unsent,
      dbOneQueued, rowB4, pyTrunc, satPerBTC])
    (by simp)

/-- C5: the claim says the fee-estimate wait is bounded by a timeout and
fails with `FeeUnavailable`.  The source's `wait_for_fee_estimates` is
`while not self.network.get_fee_estimates(): await asyncio.sleep(1)` — no
timeout and no error path: when the oracle never produces estimates, the
loop has not exited after any number of polls. -/
theorem C5_wait_has_no_timeout (fuel : Nat) :
    wait_for_fee_estimates (fun _ => false) fuel = false := by
  induction fuel with
  | zero => rfl
  | succ n ih => simpa [wait_for_fee_estimates] using ih

/-- C6: a queued request joined by a new request for the same wallet whose
combined fee ratio is within the batching threshold is broadcast together
with it in one transaction: both destinations appear in the output set the
transaction is built from, and after a successful `send` both ledger rows
are Sent carrying one and the same txid. -/
theorem C6_batched_share_one_txid (cfg : Config) (addr : String) (btc : ℚ)
    (wid : Nat) (ef : Nat → ℚ) (ts : List (String × ℚ) → Nat)
    (txf : List (String × ℚ) → String) (db : DbState) (w : WalletState)
    (rowA : TxRow) (hA : rowA ∈ db.rows) (hAw : rowA.wallet_id = wid)
    (hAq : rowA.txid = none)
    (hle : feeToAmountProportion (getTxDetails addr btc (get_unsent db wid) ef ts) ≤
        batchingThreshold cfg) :
    ((rowA.address, (rowA.amount : ℚ) / satPerBTC) ∈
      (getTxDetails addr btc (get_unsent db wid) ef ts).outputs) ∧
    ((addr, btc) ∈ (getTxDetails addr btc (get_unsent db wid) ef ts).outputs) ∧
    (∃ rA, rA ∈ (send cfg addr btc wid cfg.api_password ef ts txf true db w).2.1.rows ∧
      rA.sr_id = rowA.sr_id ∧
      rA.txid = some (txf (getTxDetails addr btc (get_unsent db wid) ef ts).outputs) ∧
      rA.status = Status.Sent) ∧
    (∃ rB, rB ∈ (send cfg addr btc wid cfg.api_password ef ts txf true db w).2.1.rows ∧
      rB.sr_id = db.nextId ∧ rB.address = addr ∧
      rB.txid = some (txf (getTxDetails addr btc (get_unsent db wid) ef ts).outputs) ∧
      rB.status = Status.Sent) := by
  have hAu : rowA ∈ get_unsent db wid := by
    simp [get_unsent, List.mem_filter, hA, hAw, hAq]
  have hs := send_broadcast cfg addr btc wid ef ts txf db w hle
  refine ⟨?_, ?_, ?_, ?_⟩
  · have h1 : (rowA.address, (rowA.amount : ℚ) / satPerBTC) ∈
        ((addr, btc) ::
          (get_unsent db wid).map (fun tx => (tx.address, (tx.amount : ℚ) / satPerBTC))) :=
      List.mem_cons_of_mem _ (List.mem_map_of_mem _ hAu)
    exact h1
  · exact List.mem_cons_self _ _
  · rw [hs]
    refine ⟨{rowA with
        txid := some (txf (getTxDetails addr btc (get_unsent db wid) ef ts).outputs),
        fee := some ((rowA.amount : ℚ) /
          ((getTxDetails addr btc (get_unsent db wid) ef ts).total_sat_amount : ℚ) *
          (getTxDetails addr btc (get_unsent db wid) ef ts).total_fee)},
      ?_, rfl, rfl, rfl⟩
    simp only [update_transactions, insert_transaction]
    refine List.mem_map.mpr ⟨rowA, List.mem_append_left _ hA, ?_⟩
    simp [hAw, hAq]
  · rw [hs]
    refine ⟨⟨db.nextId, addr, pyTrunc (btc * satPerBTC), wid,
        some (txf (getTxDetails addr btc (get_unsent db wid) ef ts).outputs),
        some ((pyTrunc (btc * satPerBTC) : ℚ) /
          ((getTxDetails addr btc (get_unsent db wid) ef ts).total_sat_amount : ℚ) *
          (getTxDetails addr btc (get_unsent db wid) ef ts).total_fee)⟩,
      ?_, rfl, rfl, rfl, rfl⟩
    simp only [update_transactions, insert_transaction]
    refine List.mem_map.mpr
      ⟨⟨db.nextId, addr, pyTrunc (btc * satPerBTC), wid, none, none⟩,
        List.mem_append_right _ (List.mem_singleton_self _), ?_⟩
    simp

/-- Witness for C6: `rowB4` (4 satoshis, wallet 7) batched with a
16-satoshi request under a 1-satoshi fee (ratio 1/20 ≤ 5%). -/
theorem C6_witness :
    ((rowB4.address, (rowB4.amount : ℚ) / satPerBTC) ∈
      (getTxDetails "a" (16 / 100000000) (get_unsent dbOneQueued 7)
        (fun _ => 1) (fun _ => 120)).outputs) ∧
    (("a", (16 : ℚ) / 100000000) ∈ (getTxDetails "a" (16 / 100000000)
      (get_unsent dbOneQueued 7) (fun _ => 1) (fun _ => 120)).outputs) ∧
    (∃ rA, rA ∈ (send ⟨"hunter2", 5⟩ "a" (16 / 100000000) 7 "hunter2" (fun _ => 1)
        (fun _ => 120) (fun _ => "T") true dbOneQueued ⟨[]⟩).2.1.rows ∧
      rA.sr_id = rowB4.sr_id ∧
      rA.txid = some ((fun _ => "T") (getTxDetails "a" (16 / 100000000)
        (get_unsent dbOneQueued 7) (fun _ => 1) (fun _ => 120)).outputs) ∧
      rA.status = Status.Sent) ∧
    (∃ rB, rB ∈ (send ⟨"hunter2", 5⟩ "a" (16 / 100000000) 7 "hunter2" (fun _ => 1)
        (fun _ => 120) (fun _ => "T") true dbOneQueued ⟨[]⟩).2.1.rows ∧
      rB.sr_id = dbOneQueued.nextId ∧ rB.address = "a" ∧
      rB.txid = some ((fun _ => "T") (getTxDetails "a" (16 / 100000000)
        (get_unsent dbOneQueued 7) (fun _ => 1) (fun _ => 120)).outputs) ∧
      rB.status = Status.Sent) :=
  C6_batched_share_one_txid ⟨"hunter2", 5⟩ "a" (16 / 100000000) 7 (fun _ => 1)
    (fun _ => 120) (fun _ => "T") dbOneQueued ⟨[]⟩ rowB4
    (by simp [dbOneQueued]) rfl rfl
    (by norm_num [feeToAmountProportion, batchingThreshold, getTxDetails, get_unsent,
      dbOneQueued, rowB4, pyTrunc, satPerBTC])

/-- C7 counterexample: the claim says every monetary quantity the core
computes is an integer number of satoshis.  The fee share the source
computes for a 1-satoshi request batched with a queued 4-satoshi request
under a 2-satoshi total fee is 2/5 of a satoshi — its denominator as a
rational is 5, not 1. -/
theorem C7_counterexample :
    ((getTxDetails "a" (1 / 100000000) [⟨0, "c", 4, 9, none, none⟩]
        (fun _ => 2) (fun _ => 150)).this_tx_fee * satPerBTC).den ≠ 1 := by
  norm_num [getTxDetails, pyTrunc, satPerBTC]

/-- C7 (amended): request amounts are persisted to the ledger as the
integer-satoshi truncation `int(btc_amount * 1.0e8)`, but fees and fee
shares are computed with real-valued (floating-point) division in BTC and
need not be whole satoshis; the share is the exact proportion
`this_tx_fee * total_sat_amount = sat_amount * total_fee`. -/
theorem C7_amended_exact_rational_share (addr : String) (btc : ℚ)
    (unsent : List TxRow) (ef : Nat → ℚ) (ts : List (String × ℚ) → Nat)
    (h : (getTxDetails addr btc unsent ef ts).total_sat_amount ≠ 0) :
    (getTxDetails addr btc unsent ef ts).this_tx_fee *
        ((getTxDetails addr btc unsent ef ts).total_sat_amount : ℚ) =
      (pyTrunc (btc * satPerBTC) : ℚ) *
        (getTxDetails addr btc unsent ef ts).total_fee := by
  have ht : (((getTxDetails addr btc unsent ef ts).total_sat_amount : ℤ) : ℚ) ≠ 0 := by
    exact_mod_cast h
  simp only [getTxDetails] at ht ⊢
  rw [div_mul_eq_mul_div, div_mul_cancel₀ _ ht]

/-- Witness for C7 (amended) at a 3-satoshi singleton batch. -/
theorem C7_witness :
    ((getTxDetails "z" (3 / 100000000) [] (fun _ => 7) (fun _ => 10)).total_sat_amount ≠ 0) ∧
    ((getTxDetails "z" (3 / 100000000) [] (fun _ => 7) (fun _ => 10)).this_tx_fee *
        ((getTxDetails "z" (3 / 100000000) [] (fun _ => 7) (fun _ => 10)).total_sat_amount : ℚ) =
      (pyTrunc (3 / 100000000 * satPerBTC) : ℚ) *
        (getTxDetails "z" (3 / 100000000) [] (fun _ => 7) (fun _ => 10)).total_fee) :=
  ⟨by norm_num [getTxDetails, pyTrunc, satPerBTC],
   C7_amended_exact_rational_share "z" (3 / 100000000) [] (fun _ => 7) (fun _ => 10)
     (by norm_num [getTxDetails, pyTrunc, satPerBTC])⟩

/-- C8: the estimate (`presend`) operation is deterministic — calling it
again with identical inputs and identical `FeeOracle`/`TxSizeEstimator`
oracles, on the state the first call left behind, returns the identical
result (same fee, same state). -/
theorem C8_presend_deterministic (cfg : Config) (addr : String) (btc : ℚ)
    (wid : Nat) (pw : String) (ef : Nat → ℚ) (ts : List (String × ℚ) → Nat)
    (db : DbState) :
    presend cfg addr btc wid pw ef ts ((presend cfg addr btc wid pw ef ts db).2) =
      presend cfg addr btc wid pw ef ts db := by
  rw [presend_snd]

/-- C9: `presend` never inserts, updates or deletes a row of the
pending-request store: the ledger state after any `presend` call equals
the state before it. -/
theorem C9_presend_reads_only (cfg : Config) (addr : String) (btc : ℚ)
    (wid : Nat) (pw : String) (ef : Nat → ℚ) (ts : List (String × ℚ) → Nat)
    (db : DbState) :
    (presend cfg addr btc wid pw ef ts db).2 = db :=
  presend_snd cfg addr btc wid pw ef ts db

/-- C10: a `send` or `presend` call whose `api_password` does not match the
configured password raises before any row is inserted: the call returns
the `Incorrect API password` error with the pending-request store (and the
wallet) completely unchanged. -/
theorem C10_password_guard (cfg : Config) (addr : String) (btc : ℚ)
    (wid : Nat) (pw : String) (ef : Nat → ℚ) (ts : List (String × ℚ) → Nat)
    (txf : List (String × ℚ) → String) (ok : Bool) (db : DbState)
    (w : WalletState) (h : pw ≠ cfg.api_password) :
    send cfg addr btc wid pw ef ts txf ok db w =
      (Except.error "Incorrect API password", db, w) ∧
    presend cfg addr btc wid pw ef ts db =
      (Except.error "Incorrect API password", db) := by
  refine ⟨send_wrong_password cfg addr btc wid pw ef ts txf ok db w h, ?_⟩
  unfold presend
  rw [if_pos h]

/-- C2 counterexample: the claim's decision rule (broadcast when the fee
ratio is within threshold OR the batch holds the configured maximum number
of requests) disagrees with the source.  With threshold 5% and a batch of
four 1-satoshi requests whose fee ratio is 1/4, a cap of 4 is reached, so
the claimed rule says broadcast; the source's `send` tests only
`batching_threshold >= fee_to_amount_proportion` (line 301) — no cap
exists in the code or its configuration — and leaves every request queued
(all `txid` columns unset, nothing recorded at the wallet). -/
theorem C2_counterexample :
    claimedDecision (batchingThreshold ⟨"hunter2", 5⟩)
        (feeToAmountProportion (getTxDetails "d4" (1 / 100000000) (get_unsent c2db 7)
          (fun _ => 1) (fun _ => 225))) 4 4 = true ∧
    ((send ⟨"hunter2", 5⟩ "d4" (1 / 100000000) 7 "hunter2" (fun _ => 1) (fun _ => 225)
        (fun _ => "T") true c2db ⟨[]⟩).2.1.rows.all (fun r => r.txid.isNone)) = true ∧
    (send ⟨"hunter2", 5⟩ "d4" (1 / 100000000) 7 "hunter2" (fun _ => 1) (fun _ => 225)
        (fun _ => "T") true c2db ⟨[]⟩).2.2 = ⟨[]⟩ := by
  have hgt : ¬ feeToAmountProportion (getTxDetails "d4" (1 / 100000000) (get_unsent c2db 7)
      (fun _ => 1) (fun _ => 225)) ≤ batchingThreshold ⟨"hunter2", 5⟩ := by
    norm_num [feeToAmountProportion, batchingThreshold, getTxDetails, get_unsent, c2db,
      pyTrunc, satPerBTC]
  have hs : send ⟨"hunter2", 5⟩ "d4" (1 / 100000000) 7 "hunter2" (fun _ => 1) (fun _ => 225)
      (fun _ => "T") true c2db ⟨[]⟩ =
      (Except.ok ((getTxDetails "d4" (1 / 100000000) (get_unsent c2db 7)
          (fun _ => 1) (fun _ => 225)).this_tx_fee, c2db.nextId),
        (insert_transaction c2db "d4" (pyTrunc (1 / 100000000 * satPerBTC)) 7).2, ⟨[]⟩) :=
    send_queued ⟨"hunter2", 5⟩ "d4" (1 / 100000000) 7 (fun _ => 1) (fun _ => 225)
      (fun _ => "T") true c2db ⟨[]⟩ hgt
  refine ⟨by simp [claimedDecision], ?_, ?_⟩
  · rw [hs]
    simp [insert_transaction, c2db]
  · rw [hs]

/-- C2 (amended): the batching decision is the threshold test alone.
`send` broadcasts the whole candidate output set exactly when
`fee_to_amount_proportion ≤ batching_threshold` (marking every queued row
of the wallet sent); there is no maximum-batch-size escape — above
threshold the new request is inserted Queued, nothing is broadcast, and
the caller is still returned the dry-run estimated fee share. -/
theorem C2_decision_is_threshold_only (cfg : Config) (addr : String) (btc : ℚ)
    (wid : Nat) (ef : Nat → ℚ) (ts : List (String × ℚ) → Nat)
    (txf : List (String × ℚ) → String) (db : DbState) (w : WalletState) :
    (feeToAmountProportion (getTxDetails addr btc (get_unsent db wid) ef ts) ≤
        batchingThreshold cfg →
      send cfg addr btc wid cfg.api_password ef ts txf true db w =
        (Except.ok ((getTxDetails addr btc (get_unsent db wid) ef ts).this_tx_fee, db.nextId),
          update_transactions (insert_transaction db addr (pyTrunc (btc * satPerBTC)) wid).2
            wid (txf (getTxDetails addr btc (get_unsent db wid) ef ts).outputs)
            (getTxDetails addr btc (get_unsent db wid) ef ts).total_fee
            ((getTxDetails addr btc (get_unsent db wid) ef ts).total_sat_amount : ℚ),
          w.add_transaction (txf (getTxDetails addr btc (get_unsent db wid) ef ts).outputs))) ∧
    (¬ feeToAmountProportion (getTxDetails addr btc (get_unsent db wid) ef ts) ≤
        batchingThreshold cfg →
      ∀ ok : Bool,
        send cfg addr btc wid cfg.api_password ef ts txf ok db w =
          (Except.ok ((getTxDetails addr btc (get_unsent db wid) ef ts).this_tx_fee, db.nextId),
            (insert_transaction db addr (pyTrunc (btc * satPerBTC)) wid).2, w)) :=
  ⟨fun hle => send_broadcast cfg addr btc wid ef ts txf db w hle,
   fun hgt ok => send_queued cfg addr btc wid ef ts txf ok db w hgt⟩

/-- Witness for C2 (amended) at a concrete below-threshold batch: a queued
4-satoshi request joined by a 16-satoshi request under a 1-satoshi fee has
ratio 1/20 ≤ 5% and is broadcast. -/
theorem C2_witness :
    send ⟨"hunter2", 5⟩ "a" (16 / 100000000) 7 "hunter2" (fun _ => 1) (fun _ => 120)
        (fun _ => "T") true dbOneQueued ⟨[]⟩ =
      (Except.ok ((getTxDetails "a" (16 / 100000000) (get_unsent dbOneQueued 7)
          (fun _ => 1) (fun _ => 120)).this_tx_fee, 1),
        update_transactions
          (insert_transaction dbOneQueued "a" (pyTrunc (16 / 100000000 * satPerBTC)) 7).2
          7 "T" (getTxDetails "a" (16 / 100000000) (get_unsent dbOneQueued 7)
            (fun _ => 1) (fun _ => 120)).total_fee
          ((getTxDetails "a" (16 / 100000000) (get_unsent dbOneQueued 7)
            (fun _ => 1) (fun _ => 120)).total_sat_amount : ℚ),
        WalletState.add_transaction ⟨[]⟩ "T") :=
  (C2_decision_is_threshold_only ⟨"hunter2", 5⟩ "a" (16 / 100000000) 7 (fun _ => 1)
      (fun _ => 120) (fun _ => "T") dbOneQueued ⟨[]⟩).1
    (by norm_num [feeToAmountProportion, batchingThreshold, getTxDetails, get_unsent,
      dbOneQueued, rowB4, pyTrunc, satPerBTC])

/-- C3: over any sequence of the ledger mutations the source performs,
every row only ever moves Queued→Sent: a row present in the store is never
deleted, a Sent row is preserved byte-for-byte (so never Sent→Queued and
terminal rows are never mutated), and no reachable row is ever Failed. -/
theorem C3_status_transitions (db : DbState) (ops : List LedgerOp) (r : TxRow)
    (hr : r ∈ db.rows) :
    (∃ r', r' ∈ (applyOps db ops).rows ∧ r'.sr_id = r.sr_id ∧
        r'.address = r.address ∧ r'.amount = r.amount ∧ r'.wallet_id = r.wallet_id ∧
        (r' = r ∨ (r.status = Status.Queued ∧ r'.status = Status.Sent))) ∧
    (r.status = Status.Sent → r ∈ (applyOps db ops).rows) ∧
    (∀ r'', r'' ∈ (applyOps db ops).rows → r''.status ≠ Status.Failed) :=
  ⟨applyOps_row db ops r hr,
   fun hs => applyOps_sent_mem db ops r hr (isSome_of_status_sent r hs),
   fun r'' _ => status_ne_failed r''⟩

/-- Witness for C3: the Sent row of `c3db` through a later mark-sent cycle. -/
theorem C3_witness :
    (c3row ∈ c3db.rows) ∧
    ((∃ r', r' ∈ (applyOps c3db c3ops).rows ∧ r'.sr_id = c3row.sr_id ∧
        r'.address = c3row.address ∧ r'.amount = c3row.amount ∧
        r'.wallet_id = c3row.wallet_id ∧
        (r' = c3row ∨ (c3row.status = Status.Queued ∧ r'.status = Status.Sent))) ∧
      (c3row.status = Status.Sent → c3row ∈ (applyOps c3db c3ops).rows) ∧
      (∀ r'', r'' ∈ (applyOps c3db c3ops).rows → r''.status ≠ Status.Failed)) :=
  ⟨by simp [c3db, c3row],
   C3_status_transitions c3db c3ops c3row (by simp [c3db, c3row])⟩

/-- Witness for C10 at a concrete wrong password. -/
theorem C10_witness :
    ("x" ≠ "hunter2") ∧
    (send ⟨"hunter2", 5⟩ "a" 1 0 "x" (fun _ => 1) (fun _ => 1) (fun _ => "T")
        true ⟨[], 0⟩ ⟨[]⟩ =
      (Except.error "Incorrect API password", ⟨[], 0⟩, ⟨[]⟩) ∧
    presend ⟨"hunter2", 5⟩ "a" 1 0 "x" (fun _ => 1) (fun _ => 1) ⟨[], 0⟩ =
      (Except.error "Incorrect API password", ⟨[], 0⟩)) :=
  ⟨by decide,
    C10_password_guard ⟨"hunter2", 5⟩ "a" 1 0 "x" (fun _ => 1) (fun _ => 1)
      (fun _ => "T") true ⟨[], 0⟩ ⟨[]⟩ (by decide)⟩

end WalletService

